import Mathlib

/-!
# Shallow embedding of the Chat-System-Backend real-time engine

Source of the embedding:
* `src/socket/socket.ts` — the Socket.IO event handlers (primary variant,
  OpenAI-backed AI reply sub-protocol);
* the unnamed near-duplicate socket handler variant (Groq-backed AI reply
  sub-protocol), identical outside the AI sub-protocol;
* `src/services/chatService.ts` — `createOrUpdateSession`,
  `updateSessionStatus`, `createMessage`;
* `src/models/ChatSession.ts`, the `Message` model.

Modelling conventions:
* JavaScript strings that may be `undefined` at runtime but are only tested
  for truthiness and then used as strings are modelled as `String`, with
  `""` covering both the empty string and `undefined` (both falsy).
  Nullable / optional string fields are `Option String`; the JS `x || y`
  idiom on them is `jsOr` / `jsOrNull` / `jsOrOpt` below, which treat
  `some ""` as falsy exactly as JS does.
* Database calls are side effects recorded in an `Action` trace together
  with every `emit`; the database evolution is obtained by folding the
  persistence actions (`applyActions`).  Timestamps are elided: no claim
  under verification mentions them.
* The external AI generator (`fetch` to OpenAI resp. the Groq SDK call) is
  an oracle parameter `GenResult`; whether the `createMessage` call for the
  AI reply throws is the oracle parameter `aiPersistOk` (environmental
  database failures elsewhere are outside the model).
* The platform room primitive (Socket.IO v4 rooms) is modelled with its
  documented event semantics: a socket leaves every room before the
  `disconnect` event fires (only `disconnecting` still sees the rooms), so
  a `disconnect` listener observes `socket.rooms` as the empty set, and
  `io.in(room).fetchSockets()` reflects post-removal membership.  The
  handler's loop body is kept as a separate function (`disconnectSweep`),
  parametric in the observed room list, so that what the loop does on any
  given room set remains provable.
-/

namespace Chat

/-- Session lifecycle status, `ENUM('active','inactive','closed')` in the
`ChatSession` model. -/
inductive Status where
  | active
  | inactive
  | closed
deriving DecidableEq, Repr

/-- `senderType ∈ {'user','admin'}` in the `Message` model. -/
inductive SenderType where
  | user
  | admin
deriving DecidableEq, Repr

/-- A `chat_sessions` row (timestamps and the numeric surrogate id elided). -/
structure SessionRec where
  sessionId : String
  userIp : Option String
  userAgent : Option String
  status : Status
  aiEnabled : Bool
deriving DecidableEq, Repr

/-- A `messages` row (timestamp and numeric id elided). -/
structure Msg where
  sessionId : String
  message : String
  sender : String
  senderType : SenderType
  isAi : Bool
  attachmentUrl : Option String
  attachmentType : Option String
deriving DecidableEq, Repr

/-- The persistent store: sessions and the append-only message log. -/
structure DB where
  sessions : List SessionRec
  messages : List Msg
deriving DecidableEq, Repr

/-- JS `String.prototype.trim()`: strip leading and trailing whitespace
(executable over the character list so concrete runs reduce in the
kernel). -/
def jsTrim (s : String) : String :=
  ⟨((s.data.dropWhile Char.isWhitespace).reverse.dropWhile
      Char.isWhitespace).reverse⟩

/-- JS `x || d` where `x : string | undefined` and `d` is a string:
`undefined` and `""` are falsy. -/
def jsOr : Option String → String → String
  | some s, d => if s = "" then d else s
  | none, d => d

/-- JS `x || null` on a nullable/optional string. -/
def jsOrNull : Option String → Option String
  | some s => if s = "" then none else some s
  | none => none

/-- JS `x || old` where both sides are nullable strings (the
`sessionData.userIp || session.userIp` idiom in `createOrUpdateSession`). -/
def jsOrOpt (x old : Option String) : Option String :=
  match x with
  | some s => if s = "" then old else some s
  | none => old

/-- Input of `chatService.createOrUpdateSession`. -/
structure SessionData where
  sessionId : String
  userIp : Option String
  userAgent : Option String
  status : Option Status
deriving DecidableEq, Repr

/-- Replace the first list element satisfying `p` by its image under `f`
(the Sequelize `session.update(...)` on the row found by `findOne`). -/
def updateFirst (p : SessionRec → Bool) (f : SessionRec → SessionRec) :
    List SessionRec → List SessionRec
  | [] => []
  | x :: xs => if p x then f x :: xs else x :: updateFirst p f xs

/-- `chatService.createOrUpdateSession`: `findOrCreate` on `sessionId`;
when the row exists, update status and metadata in place.  `aiEnabled` of a
fresh row is the model's column default `false`. -/
def createOrUpdateSession (db : DB) (sd : SessionData) : DB × SessionRec :=
  match db.sessions.find? (fun s => s.sessionId = sd.sessionId) with
  | none =>
    let s : SessionRec :=
      { sessionId := sd.sessionId
        userIp := jsOrNull sd.userIp
        userAgent := jsOrNull sd.userAgent
        status := sd.status.getD .active
        aiEnabled := false }
    ({ db with sessions := db.sessions ++ [s] }, s)
  | some s =>
    let s' : SessionRec :=
      { s with
        status := sd.status.getD .active
        userIp := jsOrOpt sd.userIp s.userIp
        userAgent := jsOrOpt sd.userAgent s.userAgent }
    ({ db with
        sessions := updateFirst (fun t => t.sessionId = sd.sessionId)
          (fun _ => s') db.sessions }, s')

/-- `chatService.updateSessionStatus` as a database transformer.  The
`Session not found` throw is caught (and only logged) by every socket-layer
caller, so its observable effect there is no change. -/
def updateSessionStatusDB (db : DB) (sid : String) (st : Status) : DB :=
  { db with
      sessions := updateFirst (fun t => t.sessionId = sid)
        (fun s => { s with status := st }) db.sessions }

/-- `chatService.getSession`, reduced to the row lookup (the service maps
fields one-to-one into a plain record). -/
def getSession (db : DB) (sid : String) : Option SessionRec :=
  db.sessions.find? (fun s => s.sessionId = sid)

/-- `(session as any)?.ai_enabled` as tested by the socket handler:
`undefined` (no session) is falsy. -/
def aiEnabledIn (db : DB) (sid : String) : Bool :=
  ((getSession db sid).map (fun s => s.aiEnabled)).getD false

/-- Input of `chatService.createMessage`. -/
structure MessageData where
  sessionId : String
  message : String
  sender : String
  senderType : SenderType
  isAi : Option Bool
  attachmentUrl : Option String
  attachmentType : Option String
deriving DecidableEq, Repr

/-- The row built by `chatService.createMessage`:
`isAi: messageData.isAi || false`, `attachmentUrl: ... || null`,
`attachmentType: ... || null`; body and sender stored verbatim. -/
def createMessageRecord (md : MessageData) : Msg :=
  { sessionId := md.sessionId
    message := md.message
    sender := md.sender
    senderType := md.senderType
    isAi := md.isAi.getD false
    attachmentUrl := jsOrNull md.attachmentUrl
    attachmentType := jsOrNull md.attachmentType }

/-- The wire payload of a message event (`messageData` objects in the
handlers), timestamp elided.  The handlers build it from the saved row, so
it coincides with `Msg`. -/
abbrev WireMsg := Msg

/-- Outbound events emitted by the handlers. -/
inductive Event where
  | userConnected (sessionId : String)
  | messageNew (w : WireMsg)
  | messageReceived (w : WireMsg)
  | messageSent (w : WireMsg)
  | typingUser (sessionId : String)
  | typingUserStop (sessionId : String)
  | typingAdmin
  | typingAdminStop
  | errorEv (msg : String)
deriving DecidableEq, Repr

/-- Delivery target of an emit: `socket.emit` (back to the originating
connection) or `io.to(room).emit` (broadcast to a group). -/
inductive Target where
  | sender
  | room (name : String)
deriving DecidableEq, Repr

/-- One observable step of a handler: a persistence-gateway write, a room
join, or an event emission, in program order. -/
inductive Action where
  | persistMsg (m : Msg)
  | upsert (sd : SessionData)
  | setStatus (sid : String) (st : Status)
  | join (room : String)
  | emit (t : Target) (e : Event)
deriving DecidableEq, Repr

/-- Fold the persistence actions of a trace into the database. -/
def applyAction (db : DB) : Action → DB
  | .persistMsg m => { db with messages := db.messages ++ [m] }
  | .upsert sd => (createOrUpdateSession db sd).1
  | .setStatus sid st => updateSessionStatusDB db sid st
  | .join _ => db
  | .emit _ _ => db

def applyActions (db : DB) (as : List Action) : DB :=
  as.foldl applyAction db

/-- The group key of a session's room, `` `session:${sessionId}` ``. -/
def sessionRoom (sid : String) : String := "session:" ++ sid

/-- Messages persisted along a trace. -/
def persistedMsgs (as : List Action) : List Msg :=
  as.filterMap fun a =>
    match a with
    | .persistMsg m => some m
    | _ => none

/-- The message payload carried by an event, if any. -/
def eventWire : Event → Option WireMsg
  | .messageNew w => some w
  | .messageReceived w => some w
  | .messageSent w => some w
  | _ => none

/-- JS `s || d` on two plain strings (`sender || 'User'`). -/
def jsOrS (s d : String) : String :=
  if s = "" then d else s

/-- The inbound `ChatMessage` payload of `message:user` / `message:admin`
(the `isAi`/`senderType` fields of the wire interface are ignored by the
handlers; `""` covers a missing `sessionId`/`message`/`sender`). -/
structure ChatMessage where
  sessionId : String
  message : String
  sender : String
  attachmentUrl : Option String
  attachmentType : Option String
deriving DecidableEq, Repr

/-- Oracle for the external reply generator (the `fetch` to OpenAI resp.
the Groq SDK call): either the call fails (network throw / `!response.ok` /
SDK rejection), or it yields a parsed response whose
`choices[0]?.message?.content` is `content` (`none` when there are no
choices or no content). -/
inductive GenResult where
  | genFailure
  | ok (content : Option String)
deriving DecidableEq, Repr

/-- The row persisted for the AI reply (`sender: 'AI'`, `senderType:
'admin'`, `isAi: true`, no attachment fields passed). -/
def aiSaved (sid t : String) : Msg :=
  createMessageRecord
    { sessionId := sid, message := t, sender := "AI"
      senderType := .admin, isAi := some true
      attachmentUrl := none, attachmentType := none }

/-- AI-reply sub-protocol of the primary (OpenAI) `message:user` handler,
the code after the acknowledgement: skip unless the session's
`ai_enabled` flag and the API key are both present; otherwise emit
`typing:admin`, consult the generator, and on truthy trimmed text persist
and broadcast the reply then stop the indicator.  A generator failure or a
throwing `createMessage` lands in the `catch` which emits
`typing:admin:stop`; falsy text (`if (aiText)`) falls through with no
further action. -/
def aiReply (db : DB) (hasKey : Bool) (gen : GenResult) (aiPersistOk : Bool)
    (sessionId : String) : List Action :=
  if aiEnabledIn db sessionId && hasKey then
    Action.emit (.room (sessionRoom sessionId)) .typingAdmin ::
      (match gen with
       | .genFailure => [.emit (.room (sessionRoom sessionId)) .typingAdminStop]
       | .ok content =>
         match content with
         | some c =>
           if jsTrim c = "" then []
           else if aiPersistOk then
             [.persistMsg (aiSaved sessionId (jsTrim c)),
              .emit (.room (sessionRoom sessionId))
                (.messageReceived (aiSaved sessionId (jsTrim c))),
              .emit (.room "admin") (.messageNew (aiSaved sessionId (jsTrim c))),
              .emit (.room (sessionRoom sessionId)) .typingAdminStop]
           else
             [.emit (.room (sessionRoom sessionId)) .typingAdminStop]
         | none => [])
  else []

/-- AI-reply sub-protocol of the unnamed Groq handler variant.  Identical
to `aiReply` except that empty/missing text raises
`Error('Empty response from Groq API')`, which the inner `catch` turns
into a `typing:admin:stop` emission. -/
def aiReplyGroq (db : DB) (hasKey : Bool) (gen : GenResult) (aiPersistOk : Bool)
    (sessionId : String) : List Action :=
  if aiEnabledIn db sessionId && hasKey then
    Action.emit (.room (sessionRoom sessionId)) .typingAdmin ::
      (match gen with
       | .genFailure => [.emit (.room (sessionRoom sessionId)) .typingAdminStop]
       | .ok content =>
         match content with
         | some c =>
           if jsTrim c = ""
           then [.emit (.room (sessionRoom sessionId)) .typingAdminStop]
           else if aiPersistOk then
             [.persistMsg (aiSaved sessionId (jsTrim c)),
              .emit (.room (sessionRoom sessionId))
                (.messageReceived (aiSaved sessionId (jsTrim c))),
              .emit (.room "admin") (.messageNew (aiSaved sessionId (jsTrim c))),
              .emit (.room (sessionRoom sessionId)) .typingAdminStop]
           else
             [.emit (.room (sessionRoom sessionId)) .typingAdminStop]
         | none => [.emit (.room (sessionRoom sessionId)) .typingAdminStop])
  else []

/-- The row persisted for a valid `message:user` event: trimmed body,
`sender || 'User'`, `senderType: 'user'`, `isAi: false`, attachments
passed through. -/
def userSaved (data : ChatMessage) : Msg :=
  createMessageRecord
    { sessionId := data.sessionId, message := jsTrim data.message
      sender := jsOrS data.sender "User", senderType := .user
      isAi := some false
      attachmentUrl := data.attachmentUrl
      attachmentType := data.attachmentType }

/-- The row persisted for a valid `message:admin` event: trimmed body,
`sender || 'Admin'`, `senderType: 'admin'`, `isAi: false`, attachments
passed through. -/
def adminSaved (data : ChatMessage) : Msg :=
  createMessageRecord
    { sessionId := data.sessionId, message := jsTrim data.message
      sender := jsOrS data.sender "Admin", senderType := .admin
      isAi := some false
      attachmentUrl := data.attachmentUrl
      attachmentType := data.attachmentType }

/-- The `message:user` handler (primary variant): validate
(`!sessionId || !message || !message.trim()` → error to sender), persist
through `createMessage`, broadcast `message:new` to the `admin` room, echo
`message:sent` to the sender, then run the AI-reply sub-protocol. -/
def handleUserMessage (db : DB) (hasKey : Bool) (gen : GenResult)
    (aiPersistOk : Bool) (data : ChatMessage) : List Action :=
  if data.sessionId = "" ∨ data.message = "" ∨ jsTrim data.message = "" then
    [.emit .sender (.errorEv "Invalid message data")]
  else
    [.persistMsg (userSaved data),
     .emit (.room "admin") (.messageNew (userSaved data)),
     .emit .sender (.messageSent (userSaved data))]
    ++ aiReply db hasKey gen aiPersistOk data.sessionId

/-- The `message:user` handler of the unnamed Groq variant; identical to
`handleUserMessage` outside the AI-reply sub-protocol. -/
def handleUserMessageGroq (db : DB) (hasKey : Bool) (gen : GenResult)
    (aiPersistOk : Bool) (data : ChatMessage) : List Action :=
  if data.sessionId = "" ∨ data.message = "" ∨ jsTrim data.message = "" then
    [.emit .sender (.errorEv "Invalid message data")]
  else
    [.persistMsg (userSaved data),
     .emit (.room "admin") (.messageNew (userSaved data)),
     .emit .sender (.messageSent (userSaved data))]
    ++ aiReplyGroq db hasKey gen aiPersistOk data.sessionId

/-- The `message:admin` handler (identical in both variants): validate,
persist, broadcast `message:received` to the session room, echo
`message:sent` to the sender. -/
def handleAdminMessage (data : ChatMessage) : List Action :=
  if data.sessionId = "" ∨ data.message = "" ∨ jsTrim data.message = "" then
    [.emit .sender (.errorEv "Invalid message data")]
  else
    [.persistMsg (adminSaved data),
     .emit (.room (sessionRoom data.sessionId)) (.messageReceived (adminSaved data)),
     .emit .sender (.messageSent (adminSaved data))]

/-- Inbound payload of `user:connect`. -/
structure ConnectData where
  sessionId : Option String
  userIp : Option String
  userAgent : Option String
deriving DecidableEq, Repr

/-- The `user:connect` handler: reuse the supplied session id or mint a
fresh one (`uuidv4()`, supplied here as the oracle `freshId`), upsert the
session with status `active`, join the session room, reply
`user:connected` with the assigned id. -/
def handleUserConnect (freshId : String) (data : ConnectData) : List Action :=
  let sid := jsOr data.sessionId freshId
  [.upsert { sessionId := sid
             userIp := some (jsOr data.userIp "unknown")
             userAgent := some (jsOr data.userAgent "unknown")
             status := some .active },
   .join (sessionRoom sid),
   .emit .sender (.userConnected sid)]

/-- The `admin:join` handler. -/
def handleAdminJoin : List Action :=
  [.join "admin"]

/-- The `typing:start` handler: silently drop when the session id or the
sender type is missing; user-origin signals go to the `admin` room tagged
with the session id, admin-origin signals to the session room. -/
def handleTypingStart (sessionId : String) (senderType : Option SenderType) :
    List Action :=
  if sessionId = "" ∨ senderType = none then []
  else
    match senderType with
    | some .user => [.emit (.room "admin") (.typingUser sessionId)]
    | some .admin => [.emit (.room (sessionRoom sessionId)) .typingAdmin]
    | none => []

/-- The `typing:stop` handler, dual to `handleTypingStart`. -/
def handleTypingStop (sessionId : String) (senderType : Option SenderType) :
    List Action :=
  if sessionId = "" ∨ senderType = none then []
  else
    match senderType with
    | some .user => [.emit (.room "admin") (.typingUserStop sessionId)]
    | some .admin => [.emit (.room (sessionRoom sessionId)) .typingAdminStop]
    | none => []

/-- The `session:close` handler: silently drop a missing session id, else
set the session inactive (a `Session not found` throw is caught and only
logged). -/
def handleSessionClose (sessionId : String) : List Action :=
  if sessionId = "" then [] else [.setStatus sessionId .inactive]

/-- The Session Registry's membership view: (connection id, group key)
pairs. -/
abbrev Registry := List (String × String)

/-- The groups a connection belongs to (`socket.rooms`). -/
def roomsOf (reg : Registry) (sock : String) : List String :=
  ((reg.filter fun p => p.1 = sock).map Prod.snd).dedup

/-- Current members of a group (`io.in(room).fetchSockets()`). -/
def membersOf (reg : Registry) (room : String) : List String :=
  (reg.filter fun p => p.2 = room).map Prod.fst

/-- Drop every membership of a terminating connection. -/
def removeSocket (reg : Registry) (sock : String) : Registry :=
  reg.filter fun p => p.1 ≠ sock

/-- `room.startsWith('session:')`, executable over the character list so
concrete runs reduce in the kernel. -/
def isSessionRoom (room : String) : Bool :=
  room.data.take 8 = "session:".data

/-- `room.replace('session:', '')` on a `session:`-prefixed room: strip
the 8-character prefix (JS `replace` removes only the first occurrence,
which on such a room is the prefix). -/
def sessionIdOfRoom (room : String) : String :=
  ⟨room.data.drop 8⟩

/-- The loop body of the `disconnect` listener, parametric in the room
list it observes (`Array.from(socket.rooms)`): for each observed
`session:<id>` room whose current membership (`fetchSockets`) is empty,
write `status = inactive` for that session. -/
def disconnectSweep (reg' : Registry) (rooms : List String) : List Action :=
  rooms.filterMap fun room =>
    if isSessionRoom room then
      if membersOf reg' room = [] then
        some (.setStatus (sessionIdOfRoom room) .inactive)
      else none
    else none

/-- The room list a `disconnect` listener observes in Socket.IO v4: the
socket has already left every room before the event fires (only the
`disconnecting` event still sees them), so `socket.rooms` is empty. -/
def roomsSeenAtDisconnect : List String := []

/-- The `disconnect` handler as it actually executes: the platform has
already removed the terminating connection's memberships, and the source's
loop runs over the (empty) room set a `disconnect` listener observes — so
it performs no status write. -/
def handleDisconnect (reg : Registry) (sock : String) :
    Registry × List Action :=
  (removeSocket reg sock,
    disconnectSweep (removeSocket reg sock) roomsSeenAtDisconnect)

/-! ## Trace observations -/

/-- Select a persisted non-automated (human) message. -/
def humanPersistOf : Action → Option Msg
  | .persistMsg m => if m.isAi then none else some m
  | _ => none

/-- Select a persisted automated message. -/
def autoPersistOf : Action → Option Msg
  | .persistMsg m => if m.isAi then some m else none
  | _ => none

/-- Is this a room broadcast carrying a message payload with automated
flag `b`? -/
def isRoomEmitWith (b : Bool) : Action → Bool
  | .emit (.room _) e =>
    match eventWire e with
    | some w => w.isAi = b
    | none => false
  | _ => false

/-- Is this an event sent back to the originating connection? -/
def isSenderEmit : Action → Bool
  | .emit .sender _ => true
  | _ => false

/-- Is this a `typing:admin:stop` broadcast to the given session's room? -/
def isStopEmit (sid : String) : Action → Bool
  | .emit (.room r) .typingAdminStop => r = sessionRoom sid
  | _ => false

/-- Is this an `error` event (to any target)? -/
def isErrorEmit : Action → Bool
  | .emit _ (.errorEv _) => true
  | _ => false

/-- Non-automated (human-authored) messages persisted along a trace. -/
def humanPersists (as : List Action) : List Msg :=
  as.filterMap humanPersistOf

/-- Automated messages persisted along a trace. -/
def autoPersists (as : List Action) : List Msg :=
  as.filterMap autoPersistOf

/-- Room broadcasts along a trace carrying a message payload whose
automated flag is `b`. -/
def roomEmitsWith (b : Bool) (as : List Action) : List Action :=
  as.filter (isRoomEmitWith b)

/-- Events sent back to the originating connection along a trace. -/
def senderEmits (as : List Action) : List Action :=
  as.filter isSenderEmit

/-- `typing:admin:stop` broadcasts to a given session's room. -/
def stopEmits (sid : String) (as : List Action) : List Action :=
  as.filter (isStopEmit sid)

/-- `error` events along a trace (to any target). -/
def errorEmits (as : List Action) : List Action :=
  as.filter isErrorEmit

/-- The session status written by an action, if it writes one. -/
def statusWrite : Action → Option Status
  | .upsert sd => some (sd.status.getD .active)
  | .setStatus _ st => some st
  | _ => none

/-- Classification of everything the AI-reply sub-protocol may do: persist
an automated message, or broadcast to a room an event that is either
payload-free typing traffic or carries an automated payload. -/
def aiOnly : Action → Bool
  | .persistMsg m => m.isAi
  | .emit (.room _) e =>
    match eventWire e with
    | some w => w.isAi
    | none => true
  | _ => false

theorem aiSaved_isAi (sid t : String) : (aiSaved sid t).isAi = true := rfl

theorem userSaved_isAi (data : ChatMessage) : (userSaved data).isAi = false := rfl

theorem adminSaved_isAi (data : ChatMessage) : (adminSaved data).isAi = false := rfl

/-- Every action of the OpenAI-variant AI-reply sub-protocol is `aiOnly`. -/
theorem aiReply_aiOnly (db : DB) (hasKey : Bool) (gen : GenResult)
    (aiPersistOk : Bool) (sid : String) :
    ∀ a ∈ aiReply db hasKey gen aiPersistOk sid, aiOnly a = true := by
  intro a ha
  unfold aiReply at ha
  split at ha
  · rcases List.mem_cons.mp ha with h | h
    · subst h; rfl
    · rcases gen with _ | content
      · simp only [List.mem_singleton] at h; subst h; rfl
      · rcases content with _ | c
        · simp at h
        · simp only at h
          split at h
          · simp at h
          · split at h
            · simp only [List.mem_cons, List.not_mem_nil, or_false] at h
              rcases h with h | h | h | h
              · subst h; simp [aiOnly, aiSaved_isAi]
              · subst h; simp [aiOnly, eventWire, aiSaved_isAi]
              · subst h; simp [aiOnly, eventWire, aiSaved_isAi]
              · subst h; rfl
            · simp only [List.mem_singleton] at h; subst h; rfl
  · simp at ha

/-- Every action of the Groq-variant AI-reply sub-protocol is `aiOnly`. -/
theorem aiReplyGroq_aiOnly (db : DB) (hasKey : Bool) (gen : GenResult)
    (aiPersistOk : Bool) (sid : String) :
    ∀ a ∈ aiReplyGroq db hasKey gen aiPersistOk sid, aiOnly a = true := by
  intro a ha
  unfold aiReplyGroq at ha
  split at ha
  · rcases List.mem_cons.mp ha with h | h
    · subst h; rfl
    · rcases gen with _ | content
      · simp only [List.mem_singleton] at h; subst h; rfl
      · rcases content with _ | c
        · simp only [List.mem_singleton] at h; subst h; rfl
        · simp only at h
          split at h
          · simp only [List.mem_singleton] at h; subst h; rfl
          · split at h
            · simp only [List.mem_cons, List.not_mem_nil, or_false] at h
              rcases h with h | h | h | h
              · subst h; simp [aiOnly, aiSaved_isAi]
              · subst h; simp [aiOnly, eventWire, aiSaved_isAi]
              · subst h; simp [aiOnly, eventWire, aiSaved_isAi]
              · subst h; rfl
            · simp only [List.mem_singleton] at h; subst h; rfl
  · simp at ha

/-- An `aiOnly` action persists no non-automated message. -/
theorem aiOnly_humanPersistOf (a : Action) (h : aiOnly a = true) :
    humanPersistOf a = none := by
  cases a with
  | persistMsg m => simp only [aiOnly] at h; simp [humanPersistOf, h]
  | upsert sd => rfl
  | setStatus sid st => rfl
  | join r => rfl
  | emit t e => rfl

/-- An `aiOnly` action is no room broadcast of a non-automated payload. -/
theorem aiOnly_not_roomEmit_human (a : Action) (h : aiOnly a = true) :
    ¬(isRoomEmitWith false a = true) := by
  cases a with
  | emit t e =>
    cases t with
    | sender => simp [aiOnly] at h
    | room r =>
      simp only [aiOnly] at h
      cases he : eventWire e with
      | none => simp [isRoomEmitWith, he]
      | some w =>
        rw [he] at h
        have hw : w.isAi = true := h
        simp [isRoomEmitWith, he, hw]
  | persistMsg m => simp [isRoomEmitWith]
  | upsert sd => simp [isRoomEmitWith]
  | setStatus sid st => simp [isRoomEmitWith]
  | join r => simp [isRoomEmitWith]

/-- An `aiOnly` action is not addressed to the originating connection. -/
theorem aiOnly_not_senderEmit (a : Action) (h : aiOnly a = true) :
    ¬(isSenderEmit a = true) := by
  cases a with
  | emit t e =>
    cases t with
    | sender => simp [aiOnly] at h
    | room r => simp [isSenderEmit]
  | persistMsg m => simp [isSenderEmit]
  | upsert sd => simp [isSenderEmit]
  | setStatus sid st => simp [isSenderEmit]
  | join r => simp [isSenderEmit]

/-- An `aiOnly` action writes no session status. -/
theorem aiOnly_statusWrite_none (a : Action) (h : aiOnly a = true) :
    statusWrite a = none := by
  cases a <;> simp_all [aiOnly, statusWrite]

theorem humanPersists_aiReply (db : DB) (hasKey : Bool)
    (gen : GenResult) (aiPersistOk : Bool) (sid : String) :
    humanPersists (aiReply db hasKey gen aiPersistOk sid) = [] := by
  rw [humanPersists, List.filterMap_eq_nil_iff]
  intro a ha
  exact aiOnly_humanPersistOf a (aiReply_aiOnly db hasKey gen aiPersistOk sid a ha)

theorem roomEmitsWith_false_aiReply (db : DB) (hasKey : Bool)
    (gen : GenResult) (aiPersistOk : Bool) (sid : String) :
    roomEmitsWith false (aiReply db hasKey gen aiPersistOk sid) = [] := by
  rw [roomEmitsWith, List.filter_eq_nil_iff]
  intro a ha
  exact aiOnly_not_roomEmit_human a (aiReply_aiOnly db hasKey gen aiPersistOk sid a ha)

theorem senderEmits_aiReply (db : DB) (hasKey : Bool)
    (gen : GenResult) (aiPersistOk : Bool) (sid : String) :
    senderEmits (aiReply db hasKey gen aiPersistOk sid) = [] := by
  rw [senderEmits, List.filter_eq_nil_iff]
  intro a ha
  exact aiOnly_not_senderEmit a (aiReply_aiOnly db hasKey gen aiPersistOk sid a ha)

/-- A message whose trimmed body is non-empty is itself non-empty, so the
handler's three-way validation reduces to the two real conditions. -/
theorem validCond_false (data : ChatMessage)
    (hs : data.sessionId ≠ "") (hm : jsTrim data.message ≠ "") :
    ¬(data.sessionId = "" ∨ data.message = "" ∨ jsTrim data.message = "") := by
  rintro (h | h | h)
  · exact hs h
  · exact hm (by rw [h]; decide)
  · exact hm h

theorem humanPersists_append (l1 l2 : List Action) :
    humanPersists (l1 ++ l2) = humanPersists l1 ++ humanPersists l2 :=
  List.filterMap_append l1 l2 humanPersistOf

theorem roomEmitsWith_append (b : Bool) (l1 l2 : List Action) :
    roomEmitsWith b (l1 ++ l2) = roomEmitsWith b l1 ++ roomEmitsWith b l2 :=
  List.filter_append l1 l2

theorem senderEmits_append (l1 l2 : List Action) :
    senderEmits (l1 ++ l2) = senderEmits l1 ++ senderEmits l2 :=
  List.filter_append l1 l2

/-! ## Claim theorems -/

/-- C2: a `message:user` or `message:admin` event whose body is empty or
whitespace-only, or whose session id is missing, produces exactly one
typed `error` event to the originating connection and nothing else: no
message is persisted and nothing is broadcast to any group (in either
handler variant). -/
theorem invalid_message_single_error_no_side_effects
    (db : DB) (hasKey : Bool) (gen : GenResult) (aiPersistOk : Bool)
    (data : ChatMessage)
    (h : data.sessionId = "" ∨ jsTrim data.message = "") :
    handleUserMessage db hasKey gen aiPersistOk data
        = [.emit .sender (.errorEv "Invalid message data")]
      ∧ handleUserMessageGroq db hasKey gen aiPersistOk data
        = [.emit .sender (.errorEv "Invalid message data")]
      ∧ handleAdminMessage data
        = [.emit .sender (.errorEv "Invalid message data")] := by
  have hc : data.sessionId = "" ∨ data.message = "" ∨ jsTrim data.message = "" := by
    rcases h with h | h
    · exact Or.inl h
    · exact Or.inr (Or.inr h)
  refine ⟨?_, ?_, ?_⟩
  · unfold handleUserMessage; rw [if_pos hc]
  · unfold handleUserMessageGroq; rw [if_pos hc]
  · unfold handleAdminMessage; rw [if_pos hc]

theorem invalid_message_single_error_no_side_effects_witness :
    handleUserMessage ⟨[], []⟩ false .genFailure true ⟨"", "hi", "u", none, none⟩
        = [.emit .sender (.errorEv "Invalid message data")]
      ∧ handleUserMessageGroq ⟨[], []⟩ false .genFailure true ⟨"", "hi", "u", none, none⟩
        = [.emit .sender (.errorEv "Invalid message data")]
      ∧ handleAdminMessage ⟨"", "hi", "u", none, none⟩
        = [.emit .sender (.errorEv "Invalid message data")] :=
  invalid_message_single_error_no_side_effects ⟨[], []⟩ false .genFailure true
    ⟨"", "hi", "u", none, none⟩ (Or.inl rfl)

/-- C10: `typing:start`, `typing:stop` with a missing session id or a
missing sender type, and `session:close` with a missing session id, are
dropped silently — the handler performs no state change, broadcasts
nothing, and (unlike message validation failures) emits no error back to
the sender. -/
theorem typing_and_close_missing_fields_dropped
    (sid : String) (st : Option SenderType)
    (h : sid = "" ∨ st = none) :
    handleTypingStart sid st = []
    ∧ handleTypingStop sid st = []
    ∧ handleSessionClose "" = [] := by
  refine ⟨?_, ?_, by decide⟩
  · unfold handleTypingStart; rw [if_pos h]
  · unfold handleTypingStop; rw [if_pos h]

theorem typing_and_close_missing_fields_dropped_witness :
    handleTypingStart "" (some .user) = []
    ∧ handleTypingStop "" (some .user) = []
    ∧ handleSessionClose "" = [] :=
  typing_and_close_missing_fields_dropped "" (some .user) (Or.inl rfl)

/-- C9: a valid `message:user` / `message:admin` event whose sender name
is missing or empty is still persisted and broadcast exactly as usual,
with the author display name defaulting to `"User"` resp. `"Admin"`. -/
theorem missing_sender_name_defaults
    (db : DB) (hasKey : Bool) (gen : GenResult) (aiPersistOk : Bool)
    (data : ChatMessage)
    (hs : data.sessionId ≠ "") (hm : jsTrim data.message ≠ "")
    (hn : data.sender = "") :
    (userSaved data).sender = "User"
    ∧ (adminSaved data).sender = "Admin"
    ∧ handleUserMessage db hasKey gen aiPersistOk data
        = [.persistMsg (userSaved data),
           .emit (.room "admin") (.messageNew (userSaved data)),
           .emit .sender (.messageSent (userSaved data))]
          ++ aiReply db hasKey gen aiPersistOk data.sessionId
    ∧ handleAdminMessage data
        = [.persistMsg (adminSaved data),
           .emit (.room (sessionRoom data.sessionId))
             (.messageReceived (adminSaved data)),
           .emit .sender (.messageSent (adminSaved data))] := by
  refine ⟨?_, ?_, ?_, ?_⟩
  · simp [userSaved, createMessageRecord, jsOrS, hn]
  · simp [adminSaved, createMessageRecord, jsOrS, hn]
  · unfold handleUserMessage; rw [if_neg (validCond_false data hs hm)]
  · unfold handleAdminMessage; rw [if_neg (validCond_false data hs hm)]

theorem missing_sender_name_defaults_witness :
    (userSaved ⟨"s", "hi", "", none, none⟩).sender = "User"
    ∧ (adminSaved ⟨"s", "hi", "", none, none⟩).sender = "Admin"
    ∧ handleUserMessage ⟨[], []⟩ false .genFailure true ⟨"s", "hi", "", none, none⟩
        = [.persistMsg (userSaved ⟨"s", "hi", "", none, none⟩),
           .emit (.room "admin") (.messageNew (userSaved ⟨"s", "hi", "", none, none⟩)),
           .emit .sender (.messageSent (userSaved ⟨"s", "hi", "", none, none⟩))]
          ++ aiReply ⟨[], []⟩ false .genFailure true "s"
    ∧ handleAdminMessage ⟨"s", "hi", "", none, none⟩
        = [.persistMsg (adminSaved ⟨"s", "hi", "", none, none⟩),
           .emit (.room (sessionRoom "s"))
             (.messageReceived (adminSaved ⟨"s", "hi", "", none, none⟩)),
           .emit .sender (.messageSent (adminSaved ⟨"s", "hi", "", none, none⟩))] :=
  missing_sender_name_defaults ⟨[], []⟩ false .genFailure true
    ⟨"s", "hi", "", none, none⟩ (by decide) (by decide) rfl

/-- C1: a valid `message:user` / `message:admin` event persists exactly
one message (author class user resp. admin, `isAi = false`); the persist
is the first step of the trace, before any broadcast; exactly one
broadcast of a non-automated payload goes out, to the `admin` group as
`message:new` for user messages resp. to the session's group as
`message:received` for admin messages, carrying the persisted row; and a
`message:sent` acknowledgement is the one and only event echoed to the
sender.  With the AI path disabled the user trace is exactly these three
steps. -/
theorem valid_message_persist_before_single_broadcast
    (db : DB) (hasKey : Bool) (gen : GenResult) (aiPersistOk : Bool)
    (data : ChatMessage)
    (hs : data.sessionId ≠ "") (hm : jsTrim data.message ≠ "") :
    ((handleUserMessage db hasKey gen aiPersistOk data).head?
        = some (.persistMsg (userSaved data))
      ∧ humanPersists (handleUserMessage db hasKey gen aiPersistOk data)
        = [userSaved data]
      ∧ (userSaved data).senderType = .user
      ∧ (userSaved data).isAi = false
      ∧ roomEmitsWith false (handleUserMessage db hasKey gen aiPersistOk data)
        = [.emit (.room "admin") (.messageNew (userSaved data))]
      ∧ senderEmits (handleUserMessage db hasKey gen aiPersistOk data)
        = [.emit .sender (.messageSent (userSaved data))]
      ∧ (aiEnabledIn db data.sessionId = false →
          handleUserMessage db hasKey gen aiPersistOk data
            = [.persistMsg (userSaved data),
               .emit (.room "admin") (.messageNew (userSaved data)),
               .emit .sender (.messageSent (userSaved data))]))
    ∧ ((adminSaved data).senderType = .admin
      ∧ (adminSaved data).isAi = false
      ∧ handleAdminMessage data
        = [.persistMsg (adminSaved data),
           .emit (.room (sessionRoom data.sessionId))
             (.messageReceived (adminSaved data)),
           .emit .sender (.messageSent (adminSaved data))]) := by
  have hif := validCond_false data hs hm
  have hu : handleUserMessage db hasKey gen aiPersistOk data
      = [.persistMsg (userSaved data),
         .emit (.room "admin") (.messageNew (userSaved data)),
         .emit .sender (.messageSent (userSaved data))]
        ++ aiReply db hasKey gen aiPersistOk data.sessionId := by
    unfold handleUserMessage; rw [if_neg hif]
  refine ⟨⟨?_, ?_, rfl, rfl, ?_, ?_, ?_⟩, rfl, rfl, ?_⟩
  · rw [hu]; rfl
  · rw [hu, humanPersists_append, humanPersists_aiReply]
    simp [humanPersists, humanPersistOf, userSaved_isAi]
  · rw [hu, roomEmitsWith_append, roomEmitsWith_false_aiReply]
    simp [roomEmitsWith, isRoomEmitWith, eventWire, userSaved_isAi]
  · rw [hu, senderEmits_append, senderEmits_aiReply]
    simp [senderEmits, isSenderEmit]
  · intro hai
    rw [hu]
    have : aiReply db hasKey gen aiPersistOk data.sessionId = [] := by
      unfold aiReply
      rw [hai]
      simp
    rw [this, List.append_nil]
  · unfold handleAdminMessage; rw [if_neg hif]

theorem valid_message_persist_before_single_broadcast_witness :
    ((handleUserMessage ⟨[], []⟩ false .genFailure true
          ⟨"s", "hi", "u", none, none⟩).head?
        = some (.persistMsg (userSaved ⟨"s", "hi", "u", none, none⟩))
      ∧ humanPersists (handleUserMessage ⟨[], []⟩ false .genFailure true
          ⟨"s", "hi", "u", none, none⟩)
        = [userSaved ⟨"s", "hi", "u", none, none⟩]
      ∧ (userSaved ⟨"s", "hi", "u", none, none⟩).senderType = .user
      ∧ (userSaved ⟨"s", "hi", "u", none, none⟩).isAi = false
      ∧ roomEmitsWith false (handleUserMessage ⟨[], []⟩ false .genFailure true
          ⟨"s", "hi", "u", none, none⟩)
        = [.emit (.room "admin")
            (.messageNew (userSaved ⟨"s", "hi", "u", none, none⟩))]
      ∧ senderEmits (handleUserMessage ⟨[], []⟩ false .genFailure true
          ⟨"s", "hi", "u", none, none⟩)
        = [.emit .sender (.messageSent (userSaved ⟨"s", "hi", "u", none, none⟩))]
      ∧ (aiEnabledIn ⟨[], []⟩ "s" = false →
          handleUserMessage ⟨[], []⟩ false .genFailure true
              ⟨"s", "hi", "u", none, none⟩
            = [.persistMsg (userSaved ⟨"s", "hi", "u", none, none⟩),
               .emit (.room "admin")
                 (.messageNew (userSaved ⟨"s", "hi", "u", none, none⟩)),
               .emit .sender
                 (.messageSent (userSaved ⟨"s", "hi", "u", none, none⟩))]))
    ∧ ((adminSaved ⟨"s", "hi", "u", none, none⟩).senderType = .admin
      ∧ (adminSaved ⟨"s", "hi", "u", none, none⟩).isAi = false
      ∧ handleAdminMessage ⟨"s", "hi", "u", none, none⟩
        = [.persistMsg (adminSaved ⟨"s", "hi", "u", none, none⟩),
           .emit (.room (sessionRoom "s"))
             (.messageReceived (adminSaved ⟨"s", "hi", "u", none, none⟩)),
           .emit .sender
             (.messageSent (adminSaved ⟨"s", "hi", "u", none, none⟩))]) :=
  valid_message_persist_before_single_broadcast ⟨[], []⟩ false .genFailure true
    ⟨"s", "hi", "u", none, none⟩ (by decide) (by decide)

/-- C4: when the generator succeeds with non-empty (post-trim) text after
a valid user message on an AI-enabled session, both handler variants
persist the reply with author class admin, automated flag `true` and the
fixed synthetic author name `"AI"`, then broadcast it as
`message:received` to the session group and as `message:new` to the
`admin` group, and then emit the composing-stopped signal — in exactly
that order (trace positions 4–7, after the user-message steps). -/
theorem ai_success_persist_broadcast_stop_order
    (db : DB) (data : ChatMessage) (c : String)
    (hs : data.sessionId ≠ "") (hm : jsTrim data.message ≠ "")
    (hai : aiEnabledIn db data.sessionId = true)
    (hc : jsTrim c ≠ "") :
    (aiSaved data.sessionId (jsTrim c)).sender = "AI"
    ∧ (aiSaved data.sessionId (jsTrim c)).senderType = .admin
    ∧ (aiSaved data.sessionId (jsTrim c)).isAi = true
    ∧ handleUserMessage db true (.ok (some c)) true data
      = [.persistMsg (userSaved data),
         .emit (.room "admin") (.messageNew (userSaved data)),
         .emit .sender (.messageSent (userSaved data)),
         .emit (.room (sessionRoom data.sessionId)) .typingAdmin,
         .persistMsg (aiSaved data.sessionId (jsTrim c)),
         .emit (.room (sessionRoom data.sessionId))
           (.messageReceived (aiSaved data.sessionId (jsTrim c))),
         .emit (.room "admin") (.messageNew (aiSaved data.sessionId (jsTrim c))),
         .emit (.room (sessionRoom data.sessionId)) .typingAdminStop]
    ∧ handleUserMessageGroq db true (.ok (some c)) true data
      = handleUserMessage db true (.ok (some c)) true data := by
  have hif := validCond_false data hs hm
  have hair : aiReply db true (.ok (some c)) true data.sessionId
      = [.emit (.room (sessionRoom data.sessionId)) .typingAdmin,
         .persistMsg (aiSaved data.sessionId (jsTrim c)),
         .emit (.room (sessionRoom data.sessionId))
           (.messageReceived (aiSaved data.sessionId (jsTrim c))),
         .emit (.room "admin") (.messageNew (aiSaved data.sessionId (jsTrim c))),
         .emit (.room (sessionRoom data.sessionId)) .typingAdminStop] := by
    unfold aiReply
    rw [hai]
    simp [hc]
  have hairG : aiReplyGroq db true (.ok (some c)) true data.sessionId
      = aiReply db true (.ok (some c)) true data.sessionId := by
    rw [hair]
    unfold aiReplyGroq
    rw [hai]
    simp [hc]
  refine ⟨rfl, rfl, rfl, ?_, ?_⟩
  · unfold handleUserMessage
    rw [if_neg hif, hair]
    rfl
  · unfold handleUserMessage handleUserMessageGroq
    rw [if_neg hif, if_neg hif, hairG]

theorem ai_success_persist_broadcast_stop_order_witness :
    (aiSaved "s" (jsTrim "Sure, happy to help.")).sender = "AI" :=
  (ai_success_persist_broadcast_stop_order
    ⟨[⟨"s", none, none, .active, true⟩], []⟩
    ⟨"s", "hi", "u", none, none⟩ "Sure, happy to help."
    (by decide) (by decide) (by decide) (by decide)).1

/-- Quiet-failure outcome of the AI sub-protocol: the composing signal
was emitted, yet no automated message is persisted, no automated payload
is broadcast, and no error event is sent anywhere. -/
def aiQuietAfterComposing (sid : String) (as : List Action) : Prop :=
  Action.emit (.room (sessionRoom sid)) .typingAdmin ∈ as
  ∧ autoPersists as = []
  ∧ roomEmitsWith true as = []
  ∧ errorEmits as = []

/-- C3 counterexample: in the primary (OpenAI) handler, when the generator
succeeds but the reply text trims to empty, the composing signal was
emitted and yet `typing:admin:stop` is NOT sent to the session group —
the `if (aiText)` guard skips the whole block and no exception reaches
the `catch` that would emit the stop. -/
theorem ai_empty_text_no_stop_concrete :
    Action.emit (.room (sessionRoom "s")) .typingAdmin
        ∈ handleUserMessage ⟨[⟨"s", none, none, .active, true⟩], []⟩ true
            (.ok (some " ")) true ⟨"s", "hi", "u", none, none⟩
    ∧ stopEmits "s" (handleUserMessage ⟨[⟨"s", none, none, .active, true⟩], []⟩
        true (.ok (some " ")) true ⟨"s", "hi", "u", none, none⟩) = [] := by
  decide

/-- C3 (amended): whenever the AI-reply sub-protocol fails after the
composing signal was emitted, no automated message is persisted or
broadcast and no error event reaches the user; the session group receives
`typing:admin:stop` exactly once on a generator failure or a persistence
exception, but when the generator returns empty or missing text the
primary (OpenAI) variant emits no stop signal at all, while the Groq
variant emits it in every failure case. -/
theorem ai_failure_quiet_amended
    (db : DB) (aiPersistOk : Bool) (data : ChatMessage) (c : String)
    (hs : data.sessionId ≠ "") (hm : jsTrim data.message ≠ "")
    (hai : aiEnabledIn db data.sessionId = true) :
    (aiQuietAfterComposing data.sessionId
        (handleUserMessage db true .genFailure aiPersistOk data)
      ∧ stopEmits data.sessionId
          (handleUserMessage db true .genFailure aiPersistOk data)
        = [.emit (.room (sessionRoom data.sessionId)) .typingAdminStop])
    ∧ (aiQuietAfterComposing data.sessionId
        (handleUserMessage db true (.ok none) aiPersistOk data)
      ∧ stopEmits data.sessionId
          (handleUserMessage db true (.ok none) aiPersistOk data) = [])
    ∧ (jsTrim c = "" →
        aiQuietAfterComposing data.sessionId
          (handleUserMessage db true (.ok (some c)) aiPersistOk data)
        ∧ stopEmits data.sessionId
            (handleUserMessage db true (.ok (some c)) aiPersistOk data) = [])
    ∧ (jsTrim c ≠ "" →
        aiQuietAfterComposing data.sessionId
          (handleUserMessage db true (.ok (some c)) false data)
        ∧ stopEmits data.sessionId
            (handleUserMessage db true (.ok (some c)) false data)
          = [.emit (.room (sessionRoom data.sessionId)) .typingAdminStop])
    ∧ (aiQuietAfterComposing data.sessionId
        (handleUserMessageGroq db true .genFailure aiPersistOk data)
      ∧ stopEmits data.sessionId
          (handleUserMessageGroq db true .genFailure aiPersistOk data)
        = [.emit (.room (sessionRoom data.sessionId)) .typingAdminStop])
    ∧ (aiQuietAfterComposing data.sessionId
        (handleUserMessageGroq db true (.ok none) aiPersistOk data)
      ∧ stopEmits data.sessionId
          (handleUserMessageGroq db true (.ok none) aiPersistOk data)
        = [.emit (.room (sessionRoom data.sessionId)) .typingAdminStop])
    ∧ (jsTrim c = "" →
        aiQuietAfterComposing data.sessionId
          (handleUserMessageGroq db true (.ok (some c)) aiPersistOk data)
        ∧ stopEmits data.sessionId
            (handleUserMessageGroq db true (.ok (some c)) aiPersistOk data)
          = [.emit (.room (sessionRoom data.sessionId)) .typingAdminStop])
    ∧ (jsTrim c ≠ "" →
        aiQuietAfterComposing data.sessionId
          (handleUserMessageGroq db true (.ok (some c)) false data)
        ∧ stopEmits data.sessionId
            (handleUserMessageGroq db true (.ok (some c)) false data)
          = [.emit (.room (sessionRoom data.sessionId)) .typingAdminStop]) := by
  have hif := validCond_false data hs hm
  have e1 : handleUserMessage db true .genFailure aiPersistOk data
      = [.persistMsg (userSaved data),
         .emit (.room "admin") (.messageNew (userSaved data)),
         .emit .sender (.messageSent (userSaved data)),
         .emit (.room (sessionRoom data.sessionId)) .typingAdmin,
         .emit (.room (sessionRoom data.sessionId)) .typingAdminStop] := by
    unfold handleUserMessage; rw [if_neg hif]; unfold aiReply; rw [hai]; simp
  have e2 : handleUserMessage db true (.ok none) aiPersistOk data
      = [.persistMsg (userSaved data),
         .emit (.room "admin") (.messageNew (userSaved data)),
         .emit .sender (.messageSent (userSaved data)),
         .emit (.room (sessionRoom data.sessionId)) .typingAdmin] := by
    unfold handleUserMessage; rw [if_neg hif]; unfold aiReply; rw [hai]; simp
  have g1 : handleUserMessageGroq db true .genFailure aiPersistOk data
      = [.persistMsg (userSaved data),
         .emit (.room "admin") (.messageNew (userSaved data)),
         .emit .sender (.messageSent (userSaved data)),
         .emit (.room (sessionRoom data.sessionId)) .typingAdmin,
         .emit (.room (sessionRoom data.sessionId)) .typingAdminStop] := by
    unfold handleUserMessageGroq; rw [if_neg hif]; unfold aiReplyGroq; rw [hai]; simp
  have g2 : handleUserMessageGroq db true (.ok none) aiPersistOk data
      = [.persistMsg (userSaved data),
         .emit (.room "admin") (.messageNew (userSaved data)),
         .emit .sender (.messageSent (userSaved data)),
         .emit (.room (sessionRoom data.sessionId)) .typingAdmin,
         .emit (.room (sessionRoom data.sessionId)) .typingAdminStop] := by
    unfold handleUserMessageGroq; rw [if_neg hif]; unfold aiReplyGroq; rw [hai]; simp
  refine ⟨?_, ?_, ?_, ?_, ?_, ?_, ?_, ?_⟩
  · rw [e1]
    simp [aiQuietAfterComposing, autoPersists, autoPersistOf, roomEmitsWith,
      isRoomEmitWith, errorEmits, isErrorEmit, eventWire, userSaved_isAi,
      stopEmits, isStopEmit]
  · rw [e2]
    simp [aiQuietAfterComposing, autoPersists, autoPersistOf, roomEmitsWith,
      isRoomEmitWith, errorEmits, isErrorEmit, eventWire, userSaved_isAi,
      stopEmits, isStopEmit]
  · intro hc0
    have e3 : handleUserMessage db true (.ok (some c)) aiPersistOk data
        = [.persistMsg (userSaved data),
           .emit (.room "admin") (.messageNew (userSaved data)),
           .emit .sender (.messageSent (userSaved data)),
           .emit (.room (sessionRoom data.sessionId)) .typingAdmin] := by
      unfold handleUserMessage; rw [if_neg hif]; unfold aiReply; rw [hai]; simp [hc0]
    rw [e3]
    simp [aiQuietAfterComposing, autoPersists, autoPersistOf, roomEmitsWith,
      isRoomEmitWith, errorEmits, isErrorEmit, eventWire, userSaved_isAi,
      stopEmits, isStopEmit]
  · intro hc
    have e4 : handleUserMessage db true (.ok (some c)) false data
        = [.persistMsg (userSaved data),
           .emit (.room "admin") (.messageNew (userSaved data)),
           .emit .sender (.messageSent (userSaved data)),
           .emit (.room (sessionRoom data.sessionId)) .typingAdmin,
           .emit (.room (sessionRoom data.sessionId)) .typingAdminStop] := by
      unfold handleUserMessage; rw [if_neg hif]; unfold aiReply; rw [hai]; simp [hc]
    rw [e4]
    simp [aiQuietAfterComposing, autoPersists, autoPersistOf, roomEmitsWith,
      isRoomEmitWith, errorEmits, isErrorEmit, eventWire, userSaved_isAi,
      stopEmits, isStopEmit]
  · rw [g1]
    simp [aiQuietAfterComposing, autoPersists, autoPersistOf, roomEmitsWith,
      isRoomEmitWith, errorEmits, isErrorEmit, eventWire, userSaved_isAi,
      stopEmits, isStopEmit]
  · rw [g2]
    simp [aiQuietAfterComposing, autoPersists, autoPersistOf, roomEmitsWith,
      isRoomEmitWith, errorEmits, isErrorEmit, eventWire, userSaved_isAi,
      stopEmits, isStopEmit]
  · intro hc0
    have g3 : handleUserMessageGroq db true (.ok (some c)) aiPersistOk data
        = [.persistMsg (userSaved data),
           .emit (.room "admin") (.messageNew (userSaved data)),
           .emit .sender (.messageSent (userSaved data)),
           .emit (.room (sessionRoom data.sessionId)) .typingAdmin,
           .emit (.room (sessionRoom data.sessionId)) .typingAdminStop] := by
      unfold handleUserMessageGroq; rw [if_neg hif]; unfold aiReplyGroq; rw [hai]
      simp [hc0]
    rw [g3]
    simp [aiQuietAfterComposing, autoPersists, autoPersistOf, roomEmitsWith,
      isRoomEmitWith, errorEmits, isErrorEmit, eventWire, userSaved_isAi,
      stopEmits, isStopEmit]
  · intro hc
    have g4 : handleUserMessageGroq db true (.ok (some c)) false data
        = [.persistMsg (userSaved data),
           .emit (.room "admin") (.messageNew (userSaved data)),
           .emit .sender (.messageSent (userSaved data)),
           .emit (.room (sessionRoom data.sessionId)) .typingAdmin,
           .emit (.room (sessionRoom data.sessionId)) .typingAdminStop] := by
      unfold handleUserMessageGroq; rw [if_neg hif]; unfold aiReplyGroq; rw [hai]
      simp [hc]
    rw [g4]
    simp [aiQuietAfterComposing, autoPersists, autoPersistOf, roomEmitsWith,
      isRoomEmitWith, errorEmits, isErrorEmit, eventWire, userSaved_isAi,
      stopEmits, isStopEmit]

theorem ai_failure_quiet_amended_witness :
    aiQuietAfterComposing "s"
      (handleUserMessage ⟨[⟨"s", none, none, .active, true⟩], []⟩ true
        .genFailure true ⟨"s", "hi", "u", none, none⟩)
    ∧ stopEmits "s"
        (handleUserMessage ⟨[⟨"s", none, none, .active, true⟩], []⟩ true
          .genFailure true ⟨"s", "hi", "u", none, none⟩)
      = [.emit (.room (sessionRoom "s")) .typingAdminStop] :=
  (ai_failure_quiet_amended ⟨[⟨"s", none, none, .active, true⟩], []⟩ true
    ⟨"s", "hi", "u", none, none⟩ "x" (by decide) (by decide) (by decide)).1

/-- C5 (code bug): the connection's memberships are removed, but the
handler's check-and-write loop runs over the room set a `disconnect`
listener observes — which Socket.IO v4 has already emptied — so it never
writes `status = inactive`: the handler's action trace is always empty
and in the two-connection scenario the session stays `active` even after
the last member disconnects.  The same loop, run over the connection's
former rooms (what a `disconnecting` listener would see, and what the
code's own comments intend), would have produced the claimed single
inactive write on the last disconnect and no write while a member
remains. -/
theorem disconnect_never_marks_inactive
    (reg : Registry) (sock : String) :
    (handleDisconnect reg sock).1 = removeSocket reg sock
    ∧ roomsOf (handleDisconnect reg sock).1 sock = []
    ∧ (handleDisconnect reg sock).2 = []
    ∧ applyActions ⟨[⟨"s", none, none, .active, false⟩], []⟩
        (handleDisconnect [("b", "session:s")] "b").2
      = ⟨[⟨"s", none, none, .active, false⟩], []⟩
    ∧ disconnectSweep (removeSocket [("a", "session:s"), ("b", "session:s")] "a")
        (roomsOf [("a", "session:s"), ("b", "session:s")] "a") = []
    ∧ disconnectSweep (removeSocket [("b", "session:s")] "b")
        (roomsOf [("b", "session:s")] "b")
      = [.setStatus "s" .inactive] := by
  refine ⟨rfl, ?_, rfl, by decide, by decide, by decide⟩
  have hnil : ((removeSocket reg sock).filter fun p => p.1 = sock) = [] := by
    rw [List.filter_eq_nil_iff]
    intro p hp
    have h2 := (List.mem_filter.mp hp).2
    simp only [removeSocket] at h2 ⊢
    simp at h2 ⊢
    exact h2
  show roomsOf (removeSocket reg sock) sock = []
  unfold roomsOf
  rw [hnil]
  rfl

theorem jsOr_some (s d : String) : jsOr (some s) d = if s = "" then d else s :=
  rfl

theorem jsOr_ne_empty (o : Option String) (d : String) (hd : d ≠ "") :
    jsOr o d ≠ "" := by
  cases o with
  | none => exact hd
  | some s =>
    rw [jsOr_some]
    split
    · exact hd
    · assumption

theorem jsOrNull_some_of_ne (s : String) (h : s ≠ "") :
    jsOrNull (some s) = some s := by
  show (if s = "" then none else some s) = some s
  rw [if_neg h]

theorem jsOrOpt_some_of_ne (s : String) (old : Option String) (h : s ≠ "") :
    jsOrOpt (some s) old = some s := by
  show (if s = "" then old else some s) = some s
  rw [if_neg h]

theorem find?_append_of_none {α : Type} (p : α → Bool) (l1 l2 : List α)
    (h : l1.find? p = none) : (l1 ++ l2).find? p = l2.find? p := by
  induction l1 with
  | nil => rfl
  | cons x xs ih =>
    cases hx : p x with
    | true =>
      rw [List.find?_cons_of_pos _ hx] at h
      simp at h
    | false =>
      rw [List.find?_cons_of_neg _ (by simp [hx])] at h
      rw [List.cons_append, List.find?_cons_of_neg _ (by simp [hx])]
      exact ih h

theorem updateFirst_cons (p : SessionRec → Bool) (f : SessionRec → SessionRec)
    (x : SessionRec) (xs : List SessionRec) :
    updateFirst p f (x :: xs)
      = if p x then f x :: xs else x :: updateFirst p f xs :=
  rfl

theorem updateFirst_append_of_none (p : SessionRec → Bool)
    (f : SessionRec → SessionRec) (l1 l2 : List SessionRec)
    (h : ∀ x ∈ l1, ¬p x = true) :
    updateFirst p f (l1 ++ l2) = l1 ++ updateFirst p f l2 := by
  induction l1 with
  | nil => rfl
  | cons x xs ih =>
    rw [List.cons_append, updateFirst_cons,
      if_neg (h x (List.mem_cons_self x xs)),
      ih fun y hy => h y (List.mem_cons_of_mem x hy), List.cons_append]

/-- The session row created by a first `user:connect` with metadata
`ip`/`ua` (the handler substitutes `'unknown'` for missing metadata, so
the stored values are never empty). -/
def connectRec (s : String) (ip ua : Option String) : SessionRec :=
  { sessionId := s
    userIp := some (jsOr ip "unknown")
    userAgent := some (jsOr ua "unknown")
    status := .active
    aiEnabled := false }

/-- Running `user:connect` with a supplied (truthy) session id is exactly
one `createOrUpdateSession` upsert on the database. -/
theorem connect_applies_upsert (db : DB) (freshId s : String)
    (ip ua : Option String) (hs : s ≠ "") :
    applyActions db (handleUserConnect freshId ⟨some s, ip, ua⟩)
      = (createOrUpdateSession db
          ⟨s, some (jsOr ip "unknown"), some (jsOr ua "unknown"),
            some .active⟩).1 := by
  have hsid : jsOr (some s) freshId = s := by
    rw [jsOr_some, if_neg hs]
  unfold handleUserConnect
  rw [hsid]
  rfl

/-- C7: two `user:connect` events with the same supplied session id create
a single session record — the first call appends one row, the second call
appends nothing and instead rewrites the metadata (and status) of that
row in place — and each call replies to its sender with the same assigned
session id. -/
theorem connect_twice_single_record
    (db : DB) (s : String) (ip1 ua1 ip2 ua2 : Option String) (f1 f2 : String)
    (hs : s ≠ "")
    (hnew : db.sessions.find? (fun t => t.sessionId = s) = none) :
    applyActions db (handleUserConnect f1 ⟨some s, ip1, ua1⟩)
      = ⟨db.sessions ++ [connectRec s ip1 ua1], db.messages⟩
    ∧ applyActions (applyActions db (handleUserConnect f1 ⟨some s, ip1, ua1⟩))
        (handleUserConnect f2 ⟨some s, ip2, ua2⟩)
      = ⟨db.sessions ++ [connectRec s ip2 ua2], db.messages⟩
    ∧ (List.filter (fun t => t.sessionId = s)
        (db.sessions ++ [connectRec s ip2 ua2])).length = 1
    ∧ (handleUserConnect f1 ⟨some s, ip1, ua1⟩).getLast?
      = some (.emit .sender (.userConnected s))
    ∧ (handleUserConnect f2 ⟨some s, ip2, ua2⟩).getLast?
      = some (.emit .sender (.userConnected s)) := by
  have hall : ∀ x ∈ db.sessions,
      ¬((fun t : SessionRec => decide (t.sessionId = s)) x = true) := by
    intro x hx
    exact List.find?_eq_none.mp hnew x hx
  have hu1 : jsOr ip1 "unknown" ≠ "" := jsOr_ne_empty ip1 "unknown" (by decide)
  have hu1a : jsOr ua1 "unknown" ≠ "" := jsOr_ne_empty ua1 "unknown" (by decide)
  have hu2 : jsOr ip2 "unknown" ≠ "" := jsOr_ne_empty ip2 "unknown" (by decide)
  have hu2a : jsOr ua2 "unknown" ≠ "" := jsOr_ne_empty ua2 "unknown" (by decide)
  have h1 : applyActions db (handleUserConnect f1 ⟨some s, ip1, ua1⟩)
      = ⟨db.sessions ++ [connectRec s ip1 ua1], db.messages⟩ := by
    rw [connect_applies_upsert db f1 s ip1 ua1 hs]
    unfold createOrUpdateSession
    rw [hnew]
    simp [connectRec, jsOrNull_some_of_ne _ hu1, jsOrNull_some_of_ne _ hu1a]
  refine ⟨h1, ?_, ?_, ?_, ?_⟩
  · rw [h1, connect_applies_upsert _ f2 s ip2 ua2 hs]
    unfold createOrUpdateSession
    have hfind : ((db.sessions ++ [connectRec s ip1 ua1]).find?
          (fun t => t.sessionId = s))
        = some (connectRec s ip1 ua1) := by
      rw [find?_append_of_none _ _ _ hnew]
      simp [connectRec]
    rw [hfind]
    dsimp only
    rw [updateFirst_append_of_none _ _ _ _ hall, updateFirst_cons,
      if_pos (by simp [connectRec])]
    simp [connectRec, jsOrOpt_some_of_ne _ _ hu2, jsOrOpt_some_of_ne _ _ hu2a]
  · rw [List.filter_append]
    have hfil : db.sessions.filter (fun t => t.sessionId = s) = [] :=
      List.filter_eq_nil_iff.mpr hall
    rw [hfil]
    simp [connectRec]
  · have hsid : jsOr (some s) f1 = s := by rw [jsOr_some, if_neg hs]
    unfold handleUserConnect
    rw [hsid]
    rfl
  · have hsid : jsOr (some s) f2 = s := by rw [jsOr_some, if_neg hs]
    unfold handleUserConnect
    rw [hsid]
    rfl

theorem connect_twice_single_record_witness :
    applyActions (applyActions (⟨[], []⟩ : DB)
        (handleUserConnect "f1" ⟨some "s", some "1.2.3.4", some "ua1"⟩))
        (handleUserConnect "f2" ⟨some "s", some "5.6.7.8", some "ua2"⟩)
      = ⟨[connectRec "s" (some "5.6.7.8") (some "ua2")], []⟩ :=
  (connect_twice_single_record ⟨[], []⟩ "s" (some "1.2.3.4") (some "ua1")
    (some "5.6.7.8") (some "ua2") "f1" "f2" (by decide) rfl).2.1

/-- C6 counterexample: `user:connect` with the session id of an existing
inactive session moves its status back to `active` —
`createOrUpdateSession` unconditionally writes `status: 'active'` on the
found row — so the core does move a session from inactive to active. -/
theorem connect_reactivates_inactive_concrete :
    applyActions ⟨[⟨"s", none, none, .inactive, false⟩], []⟩
        (handleUserConnect "f" ⟨some "s", none, none⟩)
      = ⟨[⟨"s", some "unknown", some "unknown", .active, false⟩], []⟩ := by
  decide

/-- C6 (amended): the status values the core ever writes are `active`
(from `user:connect`, which also reactivates an existing inactive or
closed session) and `inactive` (from `session:close` and `disconnect`);
the message, typing and admin-join handlers write no status, and no core
operation ever writes `closed` — but inactive→active does occur, via
`user:connect` on an existing session id. -/
theorem core_status_writes_amended :
    (∀ f d a, a ∈ handleUserConnect f d →
      ∀ st, statusWrite a = some st → st = .active)
    ∧ (∀ sid a, a ∈ handleSessionClose sid →
      ∀ st, statusWrite a = some st → st = .inactive)
    ∧ (∀ reg sock a, a ∈ (handleDisconnect reg sock).2 →
      ∀ st, statusWrite a = some st → st = .inactive)
    ∧ (∀ db k g ok d a, a ∈ handleUserMessage db k g ok d →
      statusWrite a = none)
    ∧ (∀ db k g ok d a, a ∈ handleUserMessageGroq db k g ok d →
      statusWrite a = none)
    ∧ (∀ d a, a ∈ handleAdminMessage d → statusWrite a = none)
    ∧ (∀ sid oty a, a ∈ handleTypingStart sid oty → statusWrite a = none)
    ∧ (∀ sid oty a, a ∈ handleTypingStop sid oty → statusWrite a = none)
    ∧ (∀ a, a ∈ handleAdminJoin → statusWrite a = none)
    ∧ applyActions ⟨[⟨"s", none, none, .inactive, false⟩], []⟩
        (handleUserConnect "f" ⟨some "s", none, none⟩)
      = ⟨[⟨"s", some "unknown", some "unknown", .active, false⟩], []⟩ := by
  refine ⟨?_, ?_, ?_, ?_, ?_, ?_, ?_, ?_, ?_, by decide⟩
  · intro f d a ha st hw
    simp only [handleUserConnect, List.mem_cons, List.not_mem_nil, or_false] at ha
    rcases ha with h | h | h <;> subst h <;>
      (simp [statusWrite] at hw; try exact hw.symm)
  · intro sid a ha st hw
    unfold handleSessionClose at ha
    split at ha
    · simp at ha
    · simp only [List.mem_singleton] at ha
      subst ha
      simp [statusWrite] at hw
      exact hw.symm
  · intro reg sock a ha st hw
    simp only [handleDisconnect, disconnectSweep, roomsSeenAtDisconnect,
      List.filterMap_nil] at ha
    exact absurd ha (List.not_mem_nil a)
  · intro db k g ok d a ha
    unfold handleUserMessage at ha
    split at ha
    · simp only [List.mem_singleton] at ha; subst ha; rfl
    · rcases List.mem_append.mp ha with h | h
      · simp only [List.mem_cons, List.not_mem_nil, or_false] at h
        rcases h with h | h | h <;> subst h <;> rfl
      · exact aiOnly_statusWrite_none a (aiReply_aiOnly _ _ _ _ _ a h)
  · intro db k g ok d a ha
    unfold handleUserMessageGroq at ha
    split at ha
    · simp only [List.mem_singleton] at ha; subst ha; rfl
    · rcases List.mem_append.mp ha with h | h
      · simp only [List.mem_cons, List.not_mem_nil, or_false] at h
        rcases h with h | h | h <;> subst h <;> rfl
      · exact aiOnly_statusWrite_none a (aiReplyGroq_aiOnly _ _ _ _ _ a h)
  · intro d a ha
    unfold handleAdminMessage at ha
    split at ha
    · simp only [List.mem_singleton] at ha; subst ha; rfl
    · simp only [List.mem_cons, List.not_mem_nil, or_false] at ha
      rcases ha with h | h | h <;> subst h <;> rfl
  · intro sid oty a ha
    unfold handleTypingStart at ha
    split at ha
    · simp at ha
    · split at ha <;>
        [skip; skip; simp at ha] <;>
        (simp only [List.mem_singleton] at ha; subst ha; rfl)
  · intro sid oty a ha
    unfold handleTypingStop at ha
    split at ha
    · simp at ha
    · split at ha <;>
        [skip; skip; simp at ha] <;>
        (simp only [List.mem_singleton] at ha; subst ha; rfl)
  · intro a ha
    simp only [handleAdminJoin, List.mem_singleton] at ha
    subst ha
    rfl

theorem core_status_writes_amended_witness :
    applyActions ⟨[⟨"s", none, none, .inactive, false⟩], []⟩
        (handleUserConnect "f" ⟨some "s", none, none⟩)
      = ⟨[⟨"s", some "unknown", some "unknown", .active, false⟩], []⟩ :=
  core_status_writes_amended.2.2.2.2.2.2.2.2.2

theorem autoPersists_append (l1 l2 : List Action) :
    autoPersists (l1 ++ l2) = autoPersists l1 ++ autoPersists l2 :=
  List.filterMap_append l1 l2 autoPersistOf

/-- The only rows the AI-reply sub-protocol ever persists are `aiSaved`
rows for the triggering session. -/
theorem aiReply_persists_shape (db : DB) (hasKey : Bool) (gen : GenResult)
    (aiPersistOk : Bool) (sid : String) :
    ∀ a ∈ aiReply db hasKey gen aiPersistOk sid, ∀ m, a = .persistMsg m →
      ∃ t, m = aiSaved sid t := by
  intro a ha m hm
  unfold aiReply at ha
  split at ha
  · rcases List.mem_cons.mp ha with h | h
    · subst h; simp at hm
    · rcases gen with _ | content
      · simp only [List.mem_singleton] at h; subst h; simp at hm
      · rcases content with _ | c
        · simp at h
        · simp only at h
          split at h
          · simp at h
          · split at h
            · simp only [List.mem_cons, List.not_mem_nil, or_false] at h
              rcases h with h | h | h | h <;> subst h
              · injection hm with h'
                exact ⟨jsTrim c, h'.symm⟩
              · simp at hm
              · simp at hm
              · simp at hm
            · simp only [List.mem_singleton] at h; subst h; simp at hm
  · simp at ha

/-- C8 counterexample: a `message:user` event carrying an attachment URL
but no media type persists a message with exactly one of the two
attachment fields set — neither `createMessage` nor the `Message` model
couples the two nullable columns. -/
theorem attachment_url_without_type_persisted :
    humanPersists (handleUserMessage ⟨[], []⟩ false .genFailure true
        ⟨"s", "hi", "u", some "http://x/a.png", none⟩)
      = [⟨"s", "hi", "u", .user, false, some "http://x/a.png", none⟩]
    ∧ (Option.isSome (some "http://x/a.png" : Option String) = true
      ∧ (none : Option String) = none) := by
  decide

/-- C8 (amended): the two attachment fields of a persisted message are
stored independently — each is normalised to null exactly when it is
missing or empty on the wire, with no constraint coupling them, so a
message can be stored with exactly one of the two set; rows persisted by
the AI-reply path have both fields absent. -/
theorem attachment_fields_stored_independently
    (db : DB) (hasKey : Bool) (gen : GenResult) (aiPersistOk : Bool)
    (data : ChatMessage)
    (hs : data.sessionId ≠ "") (hm : jsTrim data.message ≠ "") :
    humanPersists (handleUserMessage db hasKey gen aiPersistOk data)
      = [userSaved data]
    ∧ (userSaved data).attachmentUrl = jsOrNull data.attachmentUrl
    ∧ (userSaved data).attachmentType = jsOrNull data.attachmentType
    ∧ humanPersists (handleAdminMessage data) = [adminSaved data]
    ∧ (adminSaved data).attachmentUrl = jsOrNull data.attachmentUrl
    ∧ (adminSaved data).attachmentType = jsOrNull data.attachmentType
    ∧ (∀ m ∈ autoPersists (handleUserMessage db hasKey gen aiPersistOk data),
        m.attachmentUrl = none ∧ m.attachmentType = none) := by
  have hif := validCond_false data hs hm
  have hu : handleUserMessage db hasKey gen aiPersistOk data
      = [.persistMsg (userSaved data),
         .emit (.room "admin") (.messageNew (userSaved data)),
         .emit .sender (.messageSent (userSaved data))]
        ++ aiReply db hasKey gen aiPersistOk data.sessionId := by
    unfold handleUserMessage; rw [if_neg hif]
  refine ⟨?_, rfl, rfl, ?_, rfl, rfl, ?_⟩
  · rw [hu, humanPersists_append, humanPersists_aiReply]
    simp [humanPersists, humanPersistOf, userSaved_isAi]
  · unfold handleAdminMessage
    rw [if_neg hif]
    simp [humanPersists, humanPersistOf, adminSaved_isAi]
  · intro m hmem
    rw [hu, autoPersists_append] at hmem
    have hpre : autoPersists
        [.persistMsg (userSaved data),
         .emit (.room "admin") (.messageNew (userSaved data)),
         .emit .sender (.messageSent (userSaved data))] = [] := by
      simp [autoPersists, autoPersistOf, userSaved_isAi]
    rw [hpre, List.nil_append] at hmem
    rcases List.mem_filterMap.mp hmem with ⟨a, ha, hfa⟩
    cases a with
    | persistMsg mp =>
      have hfa2 : (if mp.isAi then some mp else none) = some m := hfa
      by_cases hb : mp.isAi = true
      · rw [if_pos hb] at hfa2
        have hmm := Option.some.inj hfa2
        rcases aiReply_persists_shape db hasKey gen aiPersistOk
          data.sessionId _ ha mp rfl with ⟨t, ht⟩
        rw [← hmm, ht]
        exact ⟨rfl, rfl⟩
      · rw [if_neg hb] at hfa2
        simp at hfa2
    | upsert sd => simp [autoPersistOf] at hfa
    | setStatus s t => simp [autoPersistOf] at hfa
    | join r => simp [autoPersistOf] at hfa
    | emit t e => simp [autoPersistOf] at hfa

theorem attachment_fields_stored_independently_witness :
    (userSaved ⟨"s", "hi", "u", some "http://x/a.png", none⟩).attachmentUrl
      = jsOrNull (some "http://x/a.png") :=
  (attachment_fields_stored_independently ⟨[], []⟩ false .genFailure true
    ⟨"s", "hi", "u", some "http://x/a.png", none⟩ (by decide) (by decide)).2.1

end Chat
